import Mathlib

/-
  Verification development for the Todo-backend event/reminder/worker core.

  Shallow embedding conventions:
  * timestamps are integers (seconds); `datetime.utcnow()` becomes an explicit
    `now : Int` argument at each call that reads the clock;
  * UUIDs become naturals; `uuid4()` fresh ids are drawn from a `next_id`
    counter threaded through the database state (only freshness matters);
  * SQLModel rows become structures, the database session becomes a `DB`
    record of row lists, and each service/worker method becomes a function
    from `DB` to `DB` (plus its return value);
  * JSON dict payloads (`details`, `data`, `suggested_action`) are modelled as
    structures holding exactly the keys the code reads or writes;
  * Python floats for the AI confidence values (0.3/0.6/0.9) and threshold are
    modelled as exact rationals; every comparison the claims exercise is far
    from any float-rounding boundary.
-/

namespace TodoBackend

/-- app/models/task.py: Priority enum. -/
inductive Priority
  | low
  | medium
  | high
deriving DecidableEq, Repr

/-- Priority.value strings. -/
def Priority.str : Priority → String
  | .low => "low"
  | .medium => "medium"
  | .high => "high"

/-- Python `Priority(value)` constructor; raises ValueError on other strings,
modelled as `none`. -/
def priority_of_string : String → Option Priority
  | "low" => some .low
  | "medium" => some .medium
  | "high" => some .high
  | _ => none

/-- app/models/reminder.py: ReminderStatus enum. -/
inductive ReminderStatus
  | pending
  | sent
  | cancelled
  | failed
deriving DecidableEq, Repr

/-- app/models/notification.py: DeliveryStatus enum. -/
inductive DeliveryStatus
  | pending
  | processing
  | sent
  | failed
deriving DecidableEq, Repr

/-- app/events/types.py: EventType enum (the eight versioned event types). -/
inductive EventType
  | taskCreated
  | taskUpdated
  | taskCompleted
  | taskDeleted
  | taskRecurred
  | reminderScheduled
  | reminderCancelled
  | reminderSent
deriving DecidableEq, Repr

/-- app/models/task.py: Task row (fields the verified code reads). -/
structure Task where
  id : Nat
  user_id : Nat
  title : String
  is_completed : Bool
  due_at : Option Int
  priority : Priority
  updated_at : Int
deriving DecidableEq, Repr

/-- app/models/reminder.py: TaskReminder row. -/
structure TaskReminder where
  id : Nat
  task_id : Nat
  user_id : Nat
  remind_at : Int
  status : ReminderStatus
  sent_at : Option Int
deriving DecidableEq, Repr

/-- app/models/notification.py: NotificationDelivery row. -/
structure NotificationDelivery where
  id : Nat
  user_id : Nat
  reminder_id : Option Nat
  subject : String
  message : String
  status : DeliveryStatus
  sent_at : Option Int
  error_message : Option String
  created_at : Int
  retry_count : Nat
  next_retry_at : Option Int
deriving DecidableEq, Repr

/-- app/services/ai_insights.py: suggested_action dict of an AIRecommendation
(the keys the executor reads). -/
structure SuggestedAction where
  field_name : Option String
  suggested_value : Option String
  remind_at : Option Int
  user_id : Option Nat
deriving DecidableEq, Repr

/-- The `changes` dict returned by an executor handler (or the raw
suggested_action echoed by a dry run). -/
inductive ChangeSet
  | priorityChanged (old_value new_value : String)
  | reminderAdded (reminder_id : Nat) (remind_at : Int)
  | suggestedOnly (a : SuggestedAction)
deriving DecidableEq, Repr

/-- The JSONB `details` dict of an AuditLog row: union of the keys written by
the consumers, workers and the AI executor. Absent keys are `none`. -/
structure AuditDetails where
  event_id : Option Nat
  event_type_str : Option String
  reason : Option String
  recurrence_type : Option String
  task_id : Option Nat
  notification_id : Option Nat
  error : Option String
  rec_type : Option String
  confidence : Option String
  applied : Option Bool
  changes : Option ChangeSet
  ai_automated : Bool
deriving DecidableEq, Repr

/-- An all-`none` details dict, updated per writer. -/
def AuditDetails.nil : AuditDetails :=
  ⟨none, none, none, none, none, none, none, none, none, none, none, false⟩

/-- app/models/audit_log.py: AuditLog row. -/
structure AuditLog where
  user_id : Nat
  action : String
  entity_type : String
  entity_id : Option Nat
  details : AuditDetails
  timestamp : Int
deriving DecidableEq, Repr

/-- app/events/types.py: the `data` dict of a TaskEventData payload
(the keys that consumers and services read or write). -/
structure EventData where
  title : Option String
  recurrence_type : Option String
  reminder_id : Option Nat
  reason : Option String
  remind_at : Option Int
deriving DecidableEq, Repr

def EventData.nil : EventData := ⟨none, none, none, none, none⟩

/-- app/events/types.py: TaskEventData (CloudEvents envelope). -/
structure TaskEventData where
  event_id : Nat
  event_type : EventType
  aggregate_id : Nat
  user_id : Nat
  timestamp : Int
  data : EventData
deriving DecidableEq, Repr

/-- app/models/task_event.py: TaskEvent outbox row. -/
structure StoredEvent where
  id : Nat
  event_type : EventType
  task_id : Option Nat
  user_id : Nat
  data : EventData
  created_at : Int
  published : Bool
  published_at : Option Int
deriving DecidableEq, Repr

/-- The relational store: one list per table, plus a fresh-id counter
standing in for uuid4. -/
structure DB where
  tasks : List Task
  reminders : List TaskReminder
  notifications : List NotificationDelivery
  audits : List AuditLog
  events : List StoredEvent
  next_id : Nat
deriving DecidableEq, Repr

def DB.empty : DB := ⟨[], [], [], [], [], 0⟩

/-- Update the reminder row with the given id (ORM mutation of a fetched
object, keyed by primary key). -/
def DB.update_reminder (db : DB) (rid : Nat) (f : TaskReminder → TaskReminder) : DB :=
  { db with reminders := db.reminders.map (fun r => if r.id = rid then f r else r) }

/- ------------------------------------------------------------------ -/
/- Reminder engine: app/services/reminders.py                          -/
/- ------------------------------------------------------------------ -/

/-- app/services/reminders.py: ReminderCandidate dataclass. -/
structure ReminderCandidate where
  task_id : Nat
  user_id : Nat
  remind_at : Int
  reason : String
deriving DecidableEq, Repr

/-- ReminderService.generate_reminder_candidate. Times in seconds; the
Python float test `hours_until_due <= 24` is the exact test
`due - now <= 24 * 3600`. -/
def generate_reminder_candidate (now : Int) (task : Task)
    (lead_hours : Option Int) : Option ReminderCandidate :=
  if task.is_completed then none
  else
    match task.due_at with
    | none => none
    | some due =>
      if due ≤ now then none
      else
        let lead : Int :=
          match lead_hours with
          | some lh => lh * 3600
          | none => if due - now ≤ 24 * 3600 then 3600 else 86400
        let remind_at := due - lead
        let remind_at := if remind_at ≤ now then now + 15 * 60 else remind_at
        some ⟨task.id, task.user_id, remind_at,
              "Due date reminder for task: " ++ task.title⟩

/- ------------------------------------------------------------------ -/
/- Event emission: app/events/publisher.py, app/services/events.py     -/
/- ------------------------------------------------------------------ -/

/-- services/events.emit_event: guarded by EVENTS_ENABLED, then
EventPublisher.emit = create_event + persist_event, appending one outbox row
with published=False inside the caller transaction. -/
def emit_event (events_enabled : Bool) (now : Int) (et : EventType)
    (aggregate_id : Option Nat) (user_id : Nat) (data : EventData) (db : DB) : DB :=
  if events_enabled then
    { db with
      events := db.events ++
        [⟨db.next_id, et, aggregate_id, user_id, data, now, false, none⟩],
      next_id := db.next_id + 1 }
  else db

/-- The broker side of EventPublisher.publish_event: the Dapr HTTP POST either
yields a response with some status code, fails to connect, or raises some
other exception (timeout etc.). -/
inductive BrokerOutcome
  | response (status : Nat)
  | connectError
  | otherError
deriving DecidableEq, Repr

/-- httpx `response.raise_for_status()` raises exactly for 4xx/5xx codes. -/
def is_error_status (s : Nat) : Bool := 400 ≤ s && s < 600

/-- EventPublisher.persist_event: builds the outbox row with published=False,
published_at=None from the envelope. -/
def persist_event (e : TaskEventData) : StoredEvent :=
  ⟨e.event_id, e.event_type, some e.aggregate_id, e.user_id, e.data,
   e.timestamp, false, none⟩

/-- EventPublisher.publish_event: posts the payload; on a 2xx/3xx response
marks published=True/published_at=now and returns True; on ConnectError,
HTTPStatusError (4xx/5xx) or any other exception returns False leaving the
row untouched. Total by construction: no failure escapes. -/
def publish_event (outcome : BrokerOutcome) (now : Int)
    (ev : StoredEvent) : Bool × StoredEvent :=
  match outcome with
  | .response s =>
    if is_error_status s then (false, ev)
    else (true, { ev with published := true, published_at := some now })
  | .connectError => (false, ev)
  | .otherError => (false, ev)

/-- Whether the broker call succeeds (response with non-error status). -/
def broker_succeeds : BrokerOutcome → Bool
  | .response s => !is_error_status s
  | .connectError => false
  | .otherError => false

/- ------------------------------------------------------------------ -/
/- ReminderService.create_reminder / cancel_task_reminders             -/
/- ------------------------------------------------------------------ -/

/-- The per-row effect of cancel_task_reminders: a pending reminder of the
task becomes cancelled, every other row is untouched. -/
def cancel_reminder_row (tid : Nat) (r : TaskReminder) : TaskReminder :=
  if r.task_id = tid ∧ r.status = ReminderStatus.pending then
    { r with status := ReminderStatus.cancelled }
  else r

/-- The query `task_id == tid AND status == PENDING`. -/
def pending_pred (tid : Nat) (r : TaskReminder) : Bool :=
  r.task_id == tid && r.status == ReminderStatus.pending

/-- ReminderService.cancel_task_reminders: flips every pending reminder of
the task to cancelled and emits one reminder.cancelled event per row;
returns the count. -/
def cancel_task_reminders (events_enabled : Bool) (now : Int) (db : DB)
    (tid : Nat) (reason : String) : DB × Nat :=
  let pending := db.reminders.filter (pending_pred tid)
  let db1 := { db with reminders := db.reminders.map (cancel_reminder_row tid) }
  let db2 := pending.foldl
    (fun d r =>
      emit_event events_enabled now EventType.reminderCancelled (some tid)
        r.user_id { EventData.nil with reminder_id := some r.id, reason := some reason } d)
    db1
  (db2, pending.length)

/-- ReminderService.create_reminder: cancels any existing pending reminders
(reason "replaced"), inserts the new pending row, emits reminder.scheduled. -/
def create_reminder (events_enabled : Bool) (now : Int) (db : DB)
    (tid uid : Nat) (remind_at : Int) : DB × TaskReminder :=
  let db1 := (cancel_task_reminders events_enabled now db tid "replaced").1
  let r : TaskReminder := ⟨db1.next_id, tid, uid, remind_at, ReminderStatus.pending, none⟩
  let db2 := { db1 with reminders := db1.reminders ++ [r], next_id := db1.next_id + 1 }
  let db3 := emit_event events_enabled now EventType.reminderScheduled (some tid) uid
    { EventData.nil with reminder_id := some r.id, remind_at := some remind_at } db2
  (db3, r)

/-- A call into the reminder lifecycle entry points (the two operations the
at-most-one-pending claim quantifies over). -/
inductive ReminderOp
  | create (events_enabled : Bool) (now : Int) (tid uid : Nat) (remind_at : Int)
  | cancel (events_enabled : Bool) (now : Int) (tid : Nat) (reason : String)

def apply_reminder_op (db : DB) : ReminderOp → DB
  | .create ee now tid uid at_ => (create_reminder ee now db tid uid at_).1
  | .cancel ee now tid reason => (cancel_task_reminders ee now db tid reason).1

def apply_reminder_ops (db : DB) (ops : List ReminderOp) : DB :=
  ops.foldl apply_reminder_op db

/-- Number of pending reminder rows for a task. -/
def pending_count (db : DB) (tid : Nat) : Nat :=
  (db.reminders.filter (pending_pred tid)).length

/- ------------------------------------------------------------------ -/
/- EventDispatcher: app/events/consumers.py                            -/
/- ------------------------------------------------------------------ -/

/-- A registered consumer over a state type σ (the session's view of the
store). `process` returns the state after the call together with the
exception message when the call raised; the state component records whatever
the consumer had already written to the session before raising. -/
structure Consumer (σ : Type) where
  name : String
  handles : EventType → Bool
  process : σ → σ × Option String

/-- EventDispatcher.dispatch: iterates the registered consumers in order; a
consumer whose `handles` is false is skipped; each invoked consumer runs
inside a try/except whose except branch only logs, so the loop continues with
the state the call left behind and nothing propagates (the return type has no
failure case). Also returns the names of the consumers invoked, in order. -/
def dispatch {σ : Type} : List (Consumer σ) → EventType → σ → σ × List String
  | [], _, s => (s, [])
  | c :: cs, et, s =>
    if c.handles et then
      let s1 := (c.process s).1
      let rest := dispatch cs et s1
      (rest.1, c.name :: rest.2)
    else dispatch cs et s

/- ------------------------------------------------------------------ -/
/- Built-in consumers: Audit, Notification, Recurrence                 -/
/- ------------------------------------------------------------------ -/

/-- AuditConsumer.EVENT_TO_ACTION (total: every EventType has an entry). -/
def event_to_action : EventType → String
  | .taskCreated => "task.created"
  | .taskUpdated => "task.updated"
  | .taskCompleted => "task.completed"
  | .taskDeleted => "task.deleted"
  | .taskRecurred => "task.recurred"
  | .reminderScheduled => "reminder.scheduled"
  | .reminderCancelled => "reminder.cancelled"
  | .reminderSent => "reminder.sent"

/-- AuditConsumer.EVENT_TO_ENTITY. -/
def event_to_entity : EventType → String
  | .reminderScheduled => "reminder"
  | .reminderCancelled => "reminder"
  | .reminderSent => "reminder"
  | _ => "task"

/-- AuditConsumer.handles: `event_type in EVENT_TO_ACTION`, true for every
member of the enum. -/
def audit_consumer_handles (_ : EventType) : Bool := true

/-- The entity id AuditConsumer records: for reminder events carrying a
reminder_id in the data, that id, otherwise the aggregate id. -/
def audit_entity_id (e : TaskEventData) : Nat :=
  match event_to_entity e.event_type, e.data.reminder_id with
  | "reminder", some rid => rid
  | _, _ => e.aggregate_id

/-- The idempotency query of AuditConsumer.process: an existing AuditLog row
with this entity_id, this action, and details containing this event_id. -/
def audit_query_pred (entity_id : Nat) (action : String) (eid : Nat)
    (a : AuditLog) : Bool :=
  a.entity_id == some entity_id && a.action == action &&
    a.details.event_id == some eid

/-- AuditConsumer.process: skips when the idempotency query finds an existing
row, else appends one AuditLog entry referencing the event id. -/
def audit_consumer_process (db : DB) (e : TaskEventData) : DB :=
  let action := event_to_action e.event_type
  let entity_type := event_to_entity e.event_type
  let entity_id := audit_entity_id e
  match db.audits.find? (audit_query_pred entity_id action e.event_id) with
  | some _ => db
  | none =>
    { db with audits := db.audits ++
        [⟨e.user_id, action, entity_type, some entity_id,
          { AuditDetails.nil with
              event_id := some e.event_id,
              event_type_str := some action },
          e.timestamp⟩] }

/-- NotificationConsumer.TEMPLATES: subject and message prefix (the message
template ends in `{title}`, so formatting appends the title). -/
def notification_template : EventType → Option (String × String)
  | .taskCreated => some ("New Task Created", "A new task has been created: ")
  | .taskCompleted => some ("Task Completed", "Great job! You completed: ")
  | _ => none

/-- NotificationConsumer.handles: NOTIFIABLE_EVENTS membership. -/
def notification_consumer_handles (et : EventType) : Bool :=
  et == EventType.taskCreated || et == EventType.taskCompleted

/-- NotificationConsumer.process: unconditionally creates one pending
NotificationDelivery row for a notifiable event. The docstring announces an
idempotency check on the event id, but the body performs none and the row
does not record the event id. `now` is the insertion clock for created_at. -/
def notification_consumer_process (now : Int) (db : DB) (e : TaskEventData) : DB :=
  match notification_template e.event_type with
  | none => db
  | some (subject, message_prefix) =>
    let title := e.data.title.getD "Unknown Task"
    { db with
      notifications := db.notifications ++
        [⟨db.next_id, e.user_id, none, subject, message_prefix ++ title,
          DeliveryStatus.pending, none, none, now, 0, none⟩],
      next_id := db.next_id + 1 }

/-- RecurrenceConsumer.handles. -/
def recurrence_consumer_handles (et : EventType) : Bool :=
  et == EventType.taskCompleted

/-- RecurrenceConsumer.process: for a completed task whose event data carries
a real recurrence type, appends a task.recurred audit row; no idempotency
check on the event id. -/
def recurrence_consumer_process (db : DB) (e : TaskEventData) : DB :=
  match e.data.recurrence_type with
  | none => db
  | some rt =>
    if rt = "" ∨ rt = "none" then db
    else
      { db with audits := db.audits ++
          [⟨e.user_id, "task.recurred", "task", some e.aggregate_id,
            { AuditDetails.nil with
                event_id := some e.event_id,
                recurrence_type := some rt },
            e.timestamp⟩] }

/- ------------------------------------------------------------------ -/
/- Worker framework helpers                                            -/
/- ------------------------------------------------------------------ -/

/-- Stable insertion into a list sorted by `le` (models SQL ORDER BY). -/
def insert_sorted {α : Type} (le : α → α → Bool) (a : α) : List α → List α
  | [] => [a]
  | b :: bs => if le a b then a :: b :: bs else b :: insert_sorted le a bs

/-- Sort by `le` (models SQL ORDER BY on a fetch query). -/
def sort_by {α : Type} (le : α → α → Bool) (l : List α) : List α :=
  l.foldr (insert_sorted le) []

/-- Worker configuration consumed from app/config.py. -/
structure WorkerSettings where
  retry_delay_seconds : Int
  max_retries : Nat
  batch_size : Nat
deriving DecidableEq, Repr

/- ------------------------------------------------------------------ -/
/- NotificationWorker: app/workers/notification_worker.py              -/
/- ------------------------------------------------------------------ -/

/-- The WHERE clause of NotificationWorker.fetch_pending: PENDING, or FAILED
with retries left and next_retry_at unset or due. -/
def notif_fetch_pred (s : WorkerSettings) (now : Int)
    (n : NotificationDelivery) : Bool :=
  n.status == DeliveryStatus.pending ||
    (n.status == DeliveryStatus.failed &&
      n.retry_count < s.max_retries &&
      (match n.next_retry_at with
       | none => true
       | some t => decide (t ≤ now)))

/-- NotificationWorker.fetch_pending: filtered, ordered by created_at,
limited to the batch size. -/
def notif_fetch_pending (s : WorkerSettings) (now : Int) (db : DB) :
    List NotificationDelivery :=
  (sort_by (fun a b => decide (a.created_at ≤ b.created_at))
    (db.notifications.filter (notif_fetch_pred s now))).take s.batch_size

/-- The row mutation of NotificationWorker.mark_failed: increments
retry_count first, then uses the incremented count in the exponential
backoff `base_delay * 2 ** retry_count` when a retry is allowed, and clears
next_retry_at otherwise. -/
def notif_mark_failed_row (s : WorkerSettings) (now : Int) (error : String)
    (can_retry : Bool) (n : NotificationDelivery) : NotificationDelivery :=
  let rc := n.retry_count + 1
  { n with
    retry_count := rc,
    error_message := some (error.take 500),
    status := DeliveryStatus.failed,
    next_retry_at :=
      if can_retry then some (now + s.retry_delay_seconds * 2 ^ rc) else none }

/-- The failure path of WorkerBase.run for a notification item: can_retry is
NotificationWorker.should_retry evaluated before mark_failed increments the
count, then mark_failed is applied to the row. -/
def notif_fail_step (s : WorkerSettings) (now : Int) (error : String)
    (n : NotificationDelivery) : NotificationDelivery :=
  notif_mark_failed_row s now error (decide (n.retry_count < s.max_retries)) n

/- ------------------------------------------------------------------ -/
/- ReminderWorker: app/workers/reminder_worker.py + workers/base.py    -/
/- ------------------------------------------------------------------ -/

/-- ReminderWorker.fetch_pending: status PENDING and remind_at due, ordered
by remind_at, limited to the batch size. -/
def reminder_fetch_pending (s : WorkerSettings) (now : Int) (db : DB) :
    List TaskReminder :=
  (sort_by (fun a b => decide (a.remind_at ≤ b.remind_at))
    (db.reminders.filter
      (fun r => r.status == ReminderStatus.pending && decide (r.remind_at ≤ now)))).take
    s.batch_size

/-- ReminderWorker.mark_processing: a pure status check. -/
def reminder_mark_processing (r : TaskReminder) : Bool :=
  r.status == ReminderStatus.pending

/-- ReminderWorker._mark_expired: reminder FAILED + reminder.expired audit. -/
def reminder_mark_expired (now : Int) (db : DB) (r : TaskReminder)
    (reason : String) : DB :=
  let db1 := db.update_reminder r.id
    (fun x => { x with status := ReminderStatus.failed, sent_at := some now })
  { db1 with audits := db1.audits ++
      [⟨r.user_id, "reminder.expired", "reminder", some r.id,
        { AuditDetails.nil with reason := some reason }, now⟩] }

/-- ReminderWorker._mark_cancelled: reminder CANCELLED + reminder.cancelled
audit. -/
def reminder_mark_cancelled (now : Int) (db : DB) (r : TaskReminder)
    (reason : String) : DB :=
  let db1 := db.update_reminder r.id
    (fun x => { x with status := ReminderStatus.cancelled, sent_at := some now })
  { db1 with audits := db1.audits ++
      [⟨r.user_id, "reminder.cancelled", "reminder", some r.id,
        { AuditDetails.nil with reason := some reason }, now⟩] }

/-- ReminderWorker.process_item: task missing → mark expired
("task_not_found"); task completed → mark cancelled ("task_completed");
otherwise create a pending NotificationDelivery referencing the reminder and
append a reminder.triggered audit entry. Total: it cannot raise. -/
def reminder_process_item (now : Int) (db : DB) (r : TaskReminder) : DB :=
  match db.tasks.find? (fun t => t.id == r.task_id) with
  | none => reminder_mark_expired now db r "task_not_found"
  | some task =>
    if task.is_completed then
      reminder_mark_cancelled now db r "task_completed"
    else
      let message :=
        match task.due_at with
        | some due => "Reminder: " ++ task.title ++ " is due at " ++ toString due
        | none => "Reminder: Dont forget to complete " ++ task.title
      let notif : NotificationDelivery :=
        ⟨db.next_id, r.user_id, some r.id,
         "Task Reminder: " ++ task.title.take 50, message,
         DeliveryStatus.pending, none, none, now, 0, none⟩
      let db1 := { db with notifications := db.notifications ++ [notif],
                           next_id := db.next_id + 1 }
      { db1 with audits := db1.audits ++
          [⟨r.user_id, "reminder.triggered", "reminder", some r.id,
            { AuditDetails.nil with
                task_id := some task.id,
                notification_id := some notif.id },
            now⟩] }

/-- ReminderWorker.mark_completed: unconditionally sets the row to SENT. -/
def reminder_mark_completed (now : Int) (db : DB) (rid : Nat) : DB :=
  db.update_reminder rid
    (fun x => { x with status := ReminderStatus.sent, sent_at := some now })

/-- One cycle of WorkerBase.run for the ReminderWorker: fetch the due pending
reminders, and for each one whose mark_processing check passes, run
process_item and then mark_completed (the loop calls mark_completed on every
item whose process_item returned without raising, and reminder_process_item
never raises). Each iteration commits. -/
def reminder_worker_run (s : WorkerSettings) (now : Int) (db : DB) : DB :=
  (reminder_fetch_pending s now db).foldl
    (fun d r =>
      if reminder_mark_processing r then
        reminder_mark_completed now (reminder_process_item now d r) r.id
      else d)
    db

/- ------------------------------------------------------------------ -/
/- AIExecutor: app/workers/ai_executor.py                              -/
/- ------------------------------------------------------------------ -/

/-- app/services/ai_insights.py: RecommendationType enum. -/
inductive RecommendationType
  | priorityChange
  | addReminder
  | taskOverdue
  | taskNeglected
deriving DecidableEq, Repr

/-- app/services/ai_insights.py: RecommendationConfidence enum. -/
inductive RecommendationConfidence
  | low
  | medium
  | high
deriving DecidableEq, Repr

/-- app/services/ai_insights.py: AIRecommendation dataclass. -/
structure AIRecommendation where
  task_id : Nat
  rec_type : RecommendationType
  confidence : RecommendationConfidence
  reason : String
  suggested_action : SuggestedAction
deriving DecidableEq, Repr

/-- AI configuration consumed from app/config.py. -/
structure AISettings where
  ai_automation_enabled : Bool
  ai_confidence_threshold : ℚ
deriving DecidableEq, Repr

/-- AIExecutor.CONFIDENCE_VALUES: low=0.3, medium=0.6, high=0.9. -/
def confidence_value : RecommendationConfidence → ℚ
  | .low => 3 / 10
  | .medium => 6 / 10
  | .high => 9 / 10

/-- AIExecutor.meets_threshold: confidence value >= configured threshold. -/
def meets_threshold (s : AISettings) (r : AIRecommendation) : Bool :=
  decide (s.ai_confidence_threshold ≤ confidence_value r.confidence)

/-- Which branch of execute_recommendation produced the result (mirrors the
reason strings: "AI automation is globally disabled", "Confidence ... below
threshold ...", "No handler for type ...", "Dry run - would have applied",
"Successfully applied", "Execution failed: ..."). Only the dry-run reason
contains the substring checked by `_log_execution`. -/
inductive ExecReason
  | globallyDisabled
  | belowThreshold
  | noHandler
  | dryRun
  | successfullyApplied
  | execFailed (msg : String)
deriving DecidableEq, Repr

/-- app/workers/ai_executor.py: ExecutionResult dataclass. -/
structure ExecutionResult where
  recommendation : AIRecommendation
  applied : Bool
  reason : ExecReason
  changes : Option ChangeSet
deriving DecidableEq, Repr

/-- AIExecutor._apply_priority_change: looks the task up (ValueError when
missing), parses the suggested value through the Priority constructor
(ValueError on an unknown string), then mutates the priority and updated_at.
Both failure cases raise before any mutation, so the state is returned
unchanged inside `Except.error`. -/
def apply_priority_change (now : Int) (db : DB) (rec : AIRecommendation) :
    Except String (DB × ChangeSet) :=
  match db.tasks.find? (fun t => t.id == rec.task_id) with
  | none => .error "Task not found"
  | some task =>
    let old_priority := task.priority.str
    let new_priority := rec.suggested_action.suggested_value.getD task.priority.str
    match priority_of_string new_priority with
    | none => .error "Invalid priority value"
    | some p =>
      let upd := fun (t : Task) =>
        if t.id = rec.task_id then { t with priority := p, updated_at := now } else t
      let db1 := { db with tasks := db.tasks.map upd }
      .ok (db1, ChangeSet.priorityChanged old_priority new_priority)

/-- AIExecutor._apply_add_reminder: task lookup and remind_at extraction
raise before anything mutates; then ReminderService.create_reminder runs. -/
def apply_add_reminder (events_enabled : Bool) (now : Int) (db : DB)
    (rec : AIRecommendation) : Except String (DB × ChangeSet) :=
  match db.tasks.find? (fun t => t.id == rec.task_id) with
  | none => .error "Task not found"
  | some task =>
    match rec.suggested_action.remind_at with
    | none => .error "remind_at not specified in recommendation"
    | some ra =>
      let created := create_reminder events_enabled now db task.id task.user_id ra
      .ok (created.1, ChangeSet.reminderAdded created.2.id ra)

/-- AIExecutor._get_handler: only priority_change and add_reminder have
executable handlers. -/
def get_handler (events_enabled : Bool) (now : Int) :
    RecommendationType → Option (DB → AIRecommendation → Except String (DB × ChangeSet))
  | .priorityChange => some (apply_priority_change now)
  | .addReminder => some (apply_add_reminder events_enabled now)
  | .taskOverdue => none
  | .taskNeglected => none

/-- AIExecutor._log_execution: appends one AuditLog entry tagged
ai_automated, with the action chosen from the result (applied / dry_run /
skipped) and the actor taken from suggested_action["user_id"] with the task
id as fallback. -/
def log_execution (now : Int) (db : DB) (res : ExecutionResult) : DB :=
  let action :=
    if res.applied then "ai.recommendation.applied"
    else if res.reason == ExecReason.dryRun then "ai.recommendation.dry_run"
    else "ai.recommendation.skipped"
  { db with audits := db.audits ++
      [⟨res.recommendation.suggested_action.user_id.getD res.recommendation.task_id, action, "task",
        some res.recommendation.task_id,
        { AuditDetails.nil with
            rec_type := some (toString (repr res.recommendation.rec_type)),
            confidence := some (toString (repr res.recommendation.confidence)),
            applied := some res.applied,
            changes := res.changes,
            ai_automated := true },
        now⟩] }

/-- AIExecutor.execute_recommendation. Gate 1 (global flag), gate 2
(confidence threshold) and the missing-handler case return early WITHOUT
calling _log_execution; only the dry-run and applied paths log. A handler
exception is caught and also returns without logging. -/
def execute_recommendation (s : AISettings) (events_enabled : Bool)
    (now : Int) (db : DB) (recommendation : AIRecommendation)
    (dry_run : Bool) : ExecutionResult × DB :=
  if !s.ai_automation_enabled then
    (⟨recommendation, false, ExecReason.globallyDisabled, none⟩, db)
  else if !meets_threshold s recommendation then
    (⟨recommendation, false, ExecReason.belowThreshold, none⟩, db)
  else
    match get_handler events_enabled now recommendation.rec_type with
    | none => (⟨recommendation, false, ExecReason.noHandler, none⟩, db)
    | some handler =>
      if dry_run then
        let res : ExecutionResult :=
          ⟨recommendation, false, ExecReason.dryRun,
           some (ChangeSet.suggestedOnly recommendation.suggested_action)⟩
        (res, log_execution now db res)
      else
        match handler db recommendation with
        | .ok (db1, changes) =>
          let res : ExecutionResult :=
            ⟨recommendation, true, ExecReason.successfullyApplied, some changes⟩
          (res, log_execution now db1 res)
        | .error e =>
          (⟨recommendation, false, ExecReason.execFailed e, none⟩, db)

/- ------------------------------------------------------------------ -/
/- Concrete instances used by the per-claim evaluations                -/
/- ------------------------------------------------------------------ -/

/-- Worker settings at the config defaults (retry delay 60s, max 3, batch 50). -/
def ws_default : WorkerSettings := ⟨60, 3, 50⟩

/-- A completed task (id 1) for the reminder-worker scenario. -/
def task_C1 : Task := ⟨1, 5, "T", true, some 100, Priority.medium, 0⟩

/-- Store with the completed task and one due pending reminder (id 2). -/
def db_C1 : DB :=
  ⟨[task_C1], [⟨2, 1, 5, 50, ReminderStatus.pending, none⟩], [], [], [], 10⟩

/-- A high-confidence priority_change recommendation targeting task 1. -/
def rec_high_priority : AIRecommendation :=
  ⟨1, RecommendationType.priorityChange, RecommendationConfidence.high,
   "Task is overdue", ⟨some "priority", some "high", none, none⟩⟩

/-- Store with one low-priority task (id 1) for the executor scenarios. -/
def db_exec : DB := ⟨[⟨1, 2, "T", false, none, Priority.low, 0⟩], [], [], [], [], 5⟩

/-- AI settings: automation off, threshold 0.8. -/
def ai_disabled : AISettings := ⟨false, 4 / 5⟩

/-- AI settings: automation on, threshold 0.8. -/
def ai_enabled : AISettings := ⟨true, 4 / 5⟩

/-- A task.completed event carrying a daily recurrence and a title. -/
def ev_completed : TaskEventData :=
  ⟨7, EventType.taskCompleted, 1, 2, 0, ⟨some "T", some "daily", none, none, none⟩⟩

/-- A fresh pending notification row (id 1) for the retry scenario. -/
def notif_start : NotificationDelivery :=
  ⟨1, 2, none, "s", "m", DeliveryStatus.pending, none, none, 0, 0, none⟩

/-- A task due in 10 hours, used to witness the lead-time policy. -/
def task_due_10h : Task := ⟨1, 2, "t", false, some 36000, Priority.medium, 0⟩

/-- The high-confidence recommendation downgraded to medium confidence. -/
def rec_medium_priority : AIRecommendation :=
  { rec_high_priority with confidence := RecommendationConfidence.medium }

/-- A high-confidence recommendation of an informational-only type. -/
def rec_overdue_info : AIRecommendation :=
  { rec_high_priority with rec_type := RecommendationType.taskOverdue }

/- ================================================================== -/
/- Theorems                                                            -/
/- ================================================================== -/

/-- Membership is preserved by sorted insertion. -/
theorem mem_insert_sorted {α : Type} (le : α → α → Bool) (a x : α)
    (l : List α) : x ∈ insert_sorted le a l ↔ x = a ∨ x ∈ l := by
  induction l with
  | nil => simp [insert_sorted]
  | cons b bs ih =>
    by_cases h : le a b
    · simp [insert_sorted, h]
    · simp [insert_sorted, h, ih, or_left_comm]

/-- Membership is preserved by sorting. -/
theorem mem_sort_by {α : Type} (le : α → α → Bool) (x : α) (l : List α) :
    x ∈ sort_by le l ↔ x ∈ l := by
  induction l with
  | nil => simp [sort_by]
  | cons b bs ih =>
    rw [sort_by, List.foldr_cons]
    rw [sort_by] at ih
    rw [mem_insert_sorted, ih, List.mem_cons]

/-- Anything returned by NotificationWorker.fetch_pending satisfies its WHERE
clause. -/
theorem notif_fetch_pred_of_mem (s : WorkerSettings) (now : Int) (db : DB)
    (n : NotificationDelivery) (h : n ∈ notif_fetch_pending s now db) :
    notif_fetch_pred s now n = true := by
  have h1 : n ∈ sort_by (fun a b => decide (a.created_at ≤ b.created_at))
      (db.notifications.filter (notif_fetch_pred s now)) :=
    List.take_subset _ _ h
  rw [mem_sort_by] at h1
  exact (List.mem_filter.1 h1).2

/-- C8: generate_reminder_candidate returns no candidate when the task is
completed, has no due date, or the due date is not strictly in the future;
otherwise, with no explicit lead_hours, remind_at is due_at minus 1 hour when
the task is due within 24 hours and due_at minus 1 day when due later, and a
computed time not in the future is clamped to now plus 15 minutes. -/
theorem claim_C8 (now : Int) (task : Task) :
    (task.is_completed = true →
      ∀ lead, generate_reminder_candidate now task lead = none)
  ∧ (task.due_at = none →
      ∀ lead, generate_reminder_candidate now task lead = none)
  ∧ (∀ d, task.due_at = some d → d ≤ now →
      ∀ lead, generate_reminder_candidate now task lead = none)
  ∧ (∀ d, task.due_at = some d → task.is_completed = false → now < d →
      ((d - now ≤ 86400 → now < d - 3600 →
        generate_reminder_candidate now task none =
          some ⟨task.id, task.user_id, d - 3600,
                "Due date reminder for task: " ++ task.title⟩)
      ∧ (86400 < d - now →
        generate_reminder_candidate now task none =
          some ⟨task.id, task.user_id, d - 86400,
                "Due date reminder for task: " ++ task.title⟩)
      ∧ (d - now ≤ 86400 → d - 3600 ≤ now →
        generate_reminder_candidate now task none =
          some ⟨task.id, task.user_id, now + 900,
                "Due date reminder for task: " ++ task.title⟩))) := by
  refine ⟨?_, ?_, ?_, ?_⟩
  · intro h lead
    simp [generate_reminder_candidate, h]
  · intro h lead
    cases hc : task.is_completed <;> simp [generate_reminder_candidate, h, hc]
  · intro d hd hle lead
    cases hc : task.is_completed <;>
      simp [generate_reminder_candidate, hd, hc, hle]
  · intro d hd hc hnow
    have hnle : ¬ d ≤ now := by omega
    refine ⟨?_, ?_, ?_⟩
    · intro h24 hgt
      have hng : ¬ d - 3600 ≤ now := by omega
      simp [generate_reminder_candidate, hd, hc, hnle, h24, hng]
    · intro h24
      have h24n : ¬ d - now ≤ 86400 := by omega
      have hng : ¬ d - 86400 ≤ now := by omega
      simp [generate_reminder_candidate, hd, hc, hnle, h24n, hng]
    · intro h24 hle
      simp [generate_reminder_candidate, hd, hc, hnle, h24, hle]

/-- Witness for C8 at a task due in 10 hours (candidate at due − 1 hour). -/
theorem claim_C8_witness :
    generate_reminder_candidate 0 task_due_10h none =
      some ⟨1, 2, 32400, "Due date reminder for task: t"⟩ :=
  ((claim_C8 0 task_due_10h).2.2.2 36000 rfl rfl (by decide)).1
    (by decide) (by decide)

/-- C3: publish_event returns false on every failing broker outcome
(connection error, 4xx/5xx status, any other exception) leaving the row
untouched — in particular a freshly persisted row keeps published=false and
published_at=none — and returns true, setting published/published_at, exactly
when the broker call succeeds; it is a total function, so no exception can
escape. -/
theorem claim_C3 (outcome : BrokerOutcome) (now : Int) (ev : StoredEvent)
    (e : TaskEventData) :
    (publish_event outcome now ev).1 = broker_succeeds outcome
  ∧ (publish_event outcome now ev).2 =
      (if broker_succeeds outcome then
        { ev with published := true, published_at := some now }
      else ev)
  ∧ (persist_event e).published = false
  ∧ (persist_event e).published_at = none := by
  refine ⟨?_, ?_, rfl, rfl⟩ <;>
    cases outcome with
    | response s =>
      cases h : is_error_status s <;>
        simp [publish_event, broker_succeeds, h]
    | connectError => rfl
    | otherError => rfl

/-- C6: dispatch invokes process exactly on the registered consumers whose
handles(event_type) is true (in registration order), threading the state
through every invoked consumer — so a consumer that raises (its process
returns an error message) never prevents the remaining consumers from being
invoked — and dispatch itself is a total function returning plain state, so
no consumer exception reaches the caller. -/
theorem claim_C6 {σ : Type} (cs : List (Consumer σ)) (et : EventType) (s : σ) :
    (dispatch cs et s).2 =
      (cs.filter (fun c => c.handles et)).map (fun c => c.name)
  ∧ (dispatch cs et s).1 =
      (cs.filter (fun c => c.handles et)).foldl (fun t c => (c.process t).1) s := by
  induction cs generalizing s with
  | nil => exact ⟨rfl, rfl⟩
  | cons c cs ih =>
    cases h : c.handles et <;>
      simp [dispatch, h, List.filter_cons, ih]

/-- C1 (divergence evidence): one run of the ReminderWorker over a due
pending reminder whose task exists and is completed. process_item marks the
reminder cancelled and writes a reminder.cancelled audit entry and no
notification is created — but WorkerBase.run then calls mark_completed
unconditionally, which overwrites the status to sent. The claim's required
final status cancelled does not hold; the no-notification part does. -/
theorem claim_C1_code_bug :
    ((reminder_worker_run ws_default 60 db_C1).reminders.map TaskReminder.status
        = [ReminderStatus.sent])
  ∧ (reminder_worker_run ws_default 60 db_C1).notifications = []
  ∧ ((reminder_worker_run ws_default 60 db_C1).audits.map AuditLog.action
        = ["reminder.cancelled"]) := by
  exact ⟨by decide, by decide, by decide⟩

/-- C9 (divergence evidence): processing the same event twice through
NotificationConsumer.process creates two NotificationDelivery rows, and
through RecurrenceConsumer.process creates two task.recurred AuditLog rows —
neither performs the idempotency check its contract (and the
NotificationConsumer docstring) require, so the second invocation does not
leave the rows unchanged. -/
theorem claim_C9_code_bug :
    ((notification_consumer_process 0
        (notification_consumer_process 0 DB.empty ev_completed)
        ev_completed).notifications.length = 2)
  ∧ ((recurrence_consumer_process
        (recurrence_consumer_process DB.empty ev_completed)
        ev_completed).audits.length = 2) := by
  exact ⟨by decide, by decide⟩

/-- C7 counterexample: with max_retries = 3 and base delay 60, a pending
notification that fails three times (the run loop computing can_retry before
each mark_failed) ends with status failed and retry_count 3, but
next_retry_at = some (30 + 60·2³) — it is NOT unset as the claim states. -/
theorem claim_C7_counterexample :
    ((notif_fail_step ws_default 30 "err"
        (notif_fail_step ws_default 20 "err"
          (notif_fail_step ws_default 10 "err" notif_start))).status
      = DeliveryStatus.failed)
  ∧ ((notif_fail_step ws_default 30 "err"
        (notif_fail_step ws_default 20 "err"
          (notif_fail_step ws_default 10 "err" notif_start))).retry_count = 3)
  ∧ ((notif_fail_step ws_default 30 "err"
        (notif_fail_step ws_default 20 "err"
          (notif_fail_step ws_default 10 "err" notif_start))).next_retry_at
      = some 510) := by
  exact ⟨by decide, by decide, by decide⟩

/-- C7 (amended): while a notification still has retries left, each failure
sets status failed, increments retry_count, and sets next_retry_at to now
plus base_delay · 2^retry_count with the just-incremented count; a failure
arriving with retry_count already at max_retries clears next_retry_at; an
item with status failed and retry_count ≥ max_retries is never returned by
fetch_pending; and a notification that fails max_retries (= 3) times ends in
terminal status failed with next_retry_at still set to the last failure time
plus base_delay · 2^3 (not unset) and is never again returned by
fetch_pending. -/
theorem claim_C7_amended :
    (∀ (s : WorkerSettings) (now : Int) (err : String)
        (n : NotificationDelivery), n.retry_count < s.max_retries →
      (notif_fail_step s now err n).status = DeliveryStatus.failed
      ∧ (notif_fail_step s now err n).retry_count = n.retry_count + 1
      ∧ (notif_fail_step s now err n).next_retry_at =
          some (now + s.retry_delay_seconds * 2 ^ (n.retry_count + 1)))
  ∧ (∀ (s : WorkerSettings) (now : Int) (err : String)
        (n : NotificationDelivery), s.max_retries ≤ n.retry_count →
      (notif_fail_step s now err n).status = DeliveryStatus.failed
      ∧ (notif_fail_step s now err n).next_retry_at = none)
  ∧ (∀ (s : WorkerSettings) (now : Int) (n : NotificationDelivery) (db : DB),
      n.status = DeliveryStatus.failed → s.max_retries ≤ n.retry_count →
        n ∉ notif_fetch_pending s now db)
  ∧ (∀ (s : WorkerSettings) (t1 t2 t3 : Int) (err : String)
        (n : NotificationDelivery), n.retry_count = 0 → s.max_retries = 3 →
      ((notif_fail_step s t3 err (notif_fail_step s t2 err
          (notif_fail_step s t1 err n))).status = DeliveryStatus.failed
      ∧ (notif_fail_step s t3 err (notif_fail_step s t2 err
          (notif_fail_step s t1 err n))).retry_count = 3
      ∧ (notif_fail_step s t3 err (notif_fail_step s t2 err
          (notif_fail_step s t1 err n))).next_retry_at =
            some (t3 + s.retry_delay_seconds * 8)
      ∧ ∀ (now : Int) (db : DB),
          notif_fail_step s t3 err (notif_fail_step s t2 err
            (notif_fail_step s t1 err n)) ∉ notif_fetch_pending s now db)) := by
  have hstep : ∀ (s : WorkerSettings) (now : Int) (err : String)
      (n : NotificationDelivery), n.retry_count < s.max_retries →
        (notif_fail_step s now err n).status = DeliveryStatus.failed
        ∧ (notif_fail_step s now err n).retry_count = n.retry_count + 1
        ∧ (notif_fail_step s now err n).next_retry_at =
            some (now + s.retry_delay_seconds * 2 ^ (n.retry_count + 1)) := by
    intro s now err n h
    have hd : decide (n.retry_count < s.max_retries) = true := by
      simpa using h
    simp [notif_fail_step, notif_mark_failed_row, hd]
  have hterm : ∀ (s : WorkerSettings) (now : Int) (err : String)
      (n : NotificationDelivery), s.max_retries ≤ n.retry_count →
        (notif_fail_step s now err n).status = DeliveryStatus.failed
        ∧ (notif_fail_step s now err n).next_retry_at = none := by
    intro s now err n h
    have hd : decide (n.retry_count < s.max_retries) = false := by
      simp; omega
    simp [notif_fail_step, notif_mark_failed_row, hd]
  have hnofetch : ∀ (s : WorkerSettings) (now : Int)
      (n : NotificationDelivery) (db : DB),
      n.status = DeliveryStatus.failed → s.max_retries ≤ n.retry_count →
        n ∉ notif_fetch_pending s now db := by
    intro s now n db h1 h2 hmem
    have hp := notif_fetch_pred_of_mem s now db n hmem
    rw [notif_fetch_pred, h1] at hp
    simp at hp
    omega
  refine ⟨hstep, hterm, hnofetch, ?_⟩
  intro s t1 t2 t3 err n h0 hm
  obtain ⟨s1, r1, _⟩ := hstep s t1 err n (by omega)
  obtain ⟨s2, r2, _⟩ := hstep s t2 err (notif_fail_step s t1 err n) (by omega)
  obtain ⟨s3, r3, a3⟩ := hstep s t3 err
    (notif_fail_step s t2 err (notif_fail_step s t1 err n)) (by omega)
  have hrc : (notif_fail_step s t3 err (notif_fail_step s t2 err
      (notif_fail_step s t1 err n))).retry_count = 3 := by omega
  refine ⟨s3, hrc, ?_, ?_⟩
  · rw [a3]
    have : (notif_fail_step s t2 err
        (notif_fail_step s t1 err n)).retry_count + 1 = 3 := by omega
    rw [this]
    norm_num
  · intro now db
    exact hnofetch s now _ db s3 (by omega)

/-- Witness for C7 (amended): the three-failure trace at the concrete default
settings, reaching retry_count 3 with the backoff value still recorded. -/
theorem claim_C7_amended_witness :
    (notif_fail_step ws_default 30 "err" (notif_fail_step ws_default 20 "err"
      (notif_fail_step ws_default 10 "err" notif_start))).next_retry_at
      = some (30 + ws_default.retry_delay_seconds * 8) :=
  (claim_C7_amended.2.2.2 ws_default 10 20 30 "err" notif_start rfl rfl).2.2.1

/-- The cancel mapping removes exactly the pending rows of the given task
from the pending query, leaving other tasks untouched. -/
theorem pending_pred_cancel_row (tid t : Nat) (r : TaskReminder) :
    pending_pred t (cancel_reminder_row tid r) =
      if t = tid then false else pending_pred t r := by
  rcases Decidable.em (r.task_id = tid ∧ r.status = ReminderStatus.pending)
    with h | h
  · simp only [cancel_reminder_row, if_pos h]
    by_cases ht : t = tid
    · rw [if_pos ht]
      simp [pending_pred]
    · rw [if_neg ht]
      have htid : tid ≠ t := fun hh => ht hh.symm
      simp [pending_pred, h.1, h.2, htid]
  · simp only [cancel_reminder_row, if_neg h]
    by_cases ht : t = tid
    · subst ht
      rw [if_pos rfl]
      rcases Decidable.em (r.task_id = t) with he | he
      · have hs : r.status ≠ ReminderStatus.pending := fun hs => h ⟨he, hs⟩
        simp [pending_pred, he, hs]
      · simp [pending_pred, he]
    · rw [if_neg ht]

/-- A row the pending query of task t keeps (t ≠ tid) is untouched by the
cancel mapping for tid. -/
theorem cancel_row_keeps (tid t : Nat) (r : TaskReminder) (ht : t ≠ tid)
    (hp : pending_pred t r = true) : cancel_reminder_row tid r = r := by
  rw [pending_pred, Bool.and_eq_true] at hp
  have h1 : r.task_id = t := by simpa using hp.1
  rw [cancel_reminder_row]
  rw [if_neg]
  intro hc
  exact ht (by omega : t = tid)

/-- Filtering the pending rows of task t after cancelling task tid. -/
theorem filter_pending_map_cancel (tid t : Nat) (l : List TaskReminder) :
    (l.map (cancel_reminder_row tid)).filter (pending_pred t) =
      if t = tid then [] else l.filter (pending_pred t) := by
  induction l with
  | nil => by_cases ht : t = tid <;> simp [ht]
  | cons r rs ih =>
    by_cases ht : t = tid
    · rw [if_pos ht] at ih ⊢
      rw [List.map_cons, List.filter_cons,
        pending_pred_cancel_row, if_pos ht, ih]
      rfl
    · rw [if_neg ht] at ih ⊢
      cases hp : pending_pred t r with
      | false =>
        rw [List.map_cons, List.filter_cons, pending_pred_cancel_row,
          if_neg ht, hp, List.filter_cons, hp]
        simpa using ih
      | true =>
        rw [List.map_cons, List.filter_cons, pending_pred_cancel_row,
          if_neg ht, hp, List.filter_cons, hp, cancel_row_keeps tid t r ht hp]
        simpa using ih

/-- emit_event never touches the reminders table. -/
theorem emit_event_reminders (ee : Bool) (now : Int) (et : EventType)
    (agg : Option Nat) (uid : Nat) (data : EventData) (db : DB) :
    (emit_event ee now et agg uid data db).reminders = db.reminders := by
  by_cases h : ee <;> simp [emit_event, h]

/-- The event-emission fold of cancel_task_reminders never touches the
reminders table. -/
theorem emit_fold_reminders (ee : Bool) (now : Int) (tid : Nat)
    (reason : String) (l : List TaskReminder) (db : DB) :
    (l.foldl (fun d r => emit_event ee now EventType.reminderCancelled
        (some tid) r.user_id
        { EventData.nil with reminder_id := some r.id, reason := some reason }
        d) db).reminders = db.reminders := by
  induction l generalizing db with
  | nil => rfl
  | cons r rs ih => rw [List.foldl_cons, ih, emit_event_reminders]

/-- The reminders table after cancel_task_reminders is the pointwise cancel
mapping of the previous table. -/
theorem cancel_reminders_list (ee : Bool) (now : Int) (db : DB) (tid : Nat)
    (reason : String) :
    (cancel_task_reminders ee now db tid reason).1.reminders =
      db.reminders.map (cancel_reminder_row tid) := by
  unfold cancel_task_reminders
  rw [emit_fold_reminders]

/-- Pending-count after cancel_task_reminders: zero for the cancelled task,
unchanged elsewhere. -/
theorem pending_count_cancel (ee : Bool) (now : Int) (db : DB)
    (tid : Nat) (reason : String) (t : Nat) :
    pending_count (cancel_task_reminders ee now db tid reason).1 t =
      if t = tid then 0 else pending_count db t := by
  unfold pending_count
  rw [cancel_reminders_list, filter_pending_map_cancel]
  by_cases ht : t = tid <;> simp [ht]

/-- The reminders table after create_reminder: every previously pending row
of the task cancelled, then the single new pending row appended. -/
theorem create_reminders_list (ee : Bool) (now : Int) (db : DB)
    (tid uid : Nat) (remind_at : Int) :
    (create_reminder ee now db tid uid remind_at).1.reminders =
      db.reminders.map (cancel_reminder_row tid) ++
        [⟨(cancel_task_reminders ee now db tid "replaced").1.next_id, tid,
          uid, remind_at, ReminderStatus.pending, none⟩] := by
  unfold create_reminder
  rw [emit_event_reminders]
  rw [cancel_reminders_list]

/-- Pending-count after create_reminder: exactly one for the task, unchanged
elsewhere. -/
theorem pending_count_create (ee : Bool) (now : Int) (db : DB)
    (tid uid : Nat) (remind_at : Int) (t : Nat) :
    pending_count (create_reminder ee now db tid uid remind_at).1 t =
      if t = tid then 1 else pending_count db t := by
  unfold pending_count
  rw [create_reminders_list, List.filter_append, filter_pending_map_cancel]
  by_cases ht : t = tid
  · rw [if_pos ht, if_pos ht, ht]
    simp [pending_pred]
  · rw [if_neg ht, if_neg ht]
    have : pending_pred t
        ⟨(cancel_task_reminders ee now db tid "replaced").1.next_id, tid,
          uid, remind_at, ReminderStatus.pending, none⟩ = false := by
      simp [pending_pred, beq_iff_eq, Ne.symm ht]
    simp [this]

/-- C2: after any sequence of create_reminder and cancel_task_reminders
calls starting from an empty store, every task has at most one pending
TaskReminder row; and create_reminder first transitions every existing
pending reminder of the task to cancelled (the resulting table is the
pointwise cancel mapping of the old one) before appending the single new
pending row. -/
theorem claim_C2 :
    (∀ (ops : List ReminderOp) (t : Nat),
      pending_count (apply_reminder_ops DB.empty ops) t ≤ 1)
  ∧ (∀ (ee : Bool) (now : Int) (db : DB) (tid uid : Nat) (remind_at : Int),
      (create_reminder ee now db tid uid remind_at).1.reminders =
        db.reminders.map (cancel_reminder_row tid) ++
          [⟨(cancel_task_reminders ee now db tid "replaced").1.next_id, tid,
            uid, remind_at, ReminderStatus.pending, none⟩]) := by
  have hstep : ∀ (db : DB) (op : ReminderOp),
      (∀ u, pending_count db u ≤ 1) →
        ∀ t, pending_count (apply_reminder_op db op) t ≤ 1 := by
    intro db op h t
    cases op with
    | create ee now tid uid remind_at =>
      rw [apply_reminder_op, pending_count_create]
      by_cases ht : t = tid
      · rw [if_pos ht]
      · rw [if_neg ht]
        exact h t
    | cancel ee now tid reason =>
      rw [apply_reminder_op, pending_count_cancel]
      by_cases ht : t = tid
      · rw [if_pos ht]
        omega
      · rw [if_neg ht]
        exact h t
  have hall : ∀ (ops : List ReminderOp) (db : DB),
      (∀ u, pending_count db u ≤ 1) →
        ∀ t, pending_count (apply_reminder_ops db ops) t ≤ 1 := by
    intro ops
    induction ops with
    | nil => intro db h t; exact h t
    | cons op ops ih =>
      intro db h t
      rw [apply_reminder_ops, List.foldl_cons]
      exact ih (apply_reminder_op db op) (hstep db op h) t
  refine ⟨?_, ?_⟩
  · intro ops t
    refine hall ops DB.empty ?_ t
    intro u
    rw [show pending_count DB.empty u = 0 from rfl]
    omega
  · intro ee now db tid uid remind_at
    exact create_reminders_list ee now db tid uid remind_at

/-- find? over an append whose first part has no match. -/
theorem find_append_none {α : Type} (p : α → Bool) (l1 l2 : List α)
    (h : l1.find? p = none) : (l1 ++ l2).find? p = l2.find? p := by
  induction l1 with
  | nil => rfl
  | cons a l ih =>
    cases ha : p a with
    | true =>
      rw [List.find?_cons_of_pos _ ha] at h
      exact absurd h (by simp)
    | false =>
      rw [List.find?_cons_of_neg _ (by simp [ha])] at h
      rw [List.cons_append, List.find?_cons_of_neg _ (by simp [ha])]
      exact ih h

/-- The AuditLog row appended by AuditConsumer.process for event e. -/
def audit_row_of (e : TaskEventData) : AuditLog :=
  ⟨e.user_id, event_to_action e.event_type, event_to_entity e.event_type,
   some (audit_entity_id e),
   { AuditDetails.nil with
       event_id := some e.event_id,
       event_type_str := some (event_to_action e.event_type) },
   e.timestamp⟩

/-- C10: AuditConsumer.process is idempotent per event — the second call with
the same event finds the existing row through the event-id query and returns
without adding another — and starting from a store with no audit row whose
details reference the event id, two calls leave exactly one such row. -/
theorem claim_C10 (db : DB) (e : TaskEventData) :
    audit_consumer_process (audit_consumer_process db e) e =
      audit_consumer_process db e
  ∧ (db.audits.filter (fun a => a.details.event_id == some e.event_id) = [] →
      ((audit_consumer_process (audit_consumer_process db e) e).audits.filter
        (fun a => a.details.event_id == some e.event_id)).length = 1) := by
  have hrowpred : audit_query_pred (audit_entity_id e)
      (event_to_action e.event_type) e.event_id (audit_row_of e) = true := by
    simp [audit_query_pred, audit_row_of]
  cases hfind : db.audits.find?
      (audit_query_pred (audit_entity_id e) (event_to_action e.event_type)
        e.event_id) with
  | some a0 =>
    have hproc : audit_consumer_process db e = db := by
      simp only [audit_consumer_process]
      rw [hfind]
    have hidem : audit_consumer_process (audit_consumer_process db e) e =
        audit_consumer_process db e := by
      rw [hproc]
      exact hproc
    refine ⟨hidem, ?_⟩
    intro hnil
    exfalso
    have hpa := List.find?_some hfind
    have hma := List.mem_of_find?_eq_some hfind
    have hev : (a0.details.event_id == some e.event_id) = true := by
      rw [audit_query_pred, Bool.and_eq_true] at hpa
      exact hpa.2
    have : a0 ∈ db.audits.filter
        (fun a => a.details.event_id == some e.event_id) :=
      List.mem_filter.2 ⟨hma, hev⟩
    rw [hnil] at this
    exact absurd this (List.not_mem_nil a0)
  | none =>
    have hproc : audit_consumer_process db e =
        { db with audits := db.audits ++ [audit_row_of e] } := by
      simp only [audit_consumer_process]
      rw [hfind]
      rfl
    have hfind2 : ({ db with audits := db.audits ++ [audit_row_of e] } :
        DB).audits.find? (audit_query_pred (audit_entity_id e)
          (event_to_action e.event_type) e.event_id) = some (audit_row_of e) := by
      rw [find_append_none _ _ _ hfind]
      rw [List.find?_cons_of_pos _ hrowpred]
    have hidem : audit_consumer_process (audit_consumer_process db e) e =
        audit_consumer_process db e := by
      rw [hproc]
      simp only [audit_consumer_process]
      rw [hfind2]
    refine ⟨hidem, ?_⟩
    intro hnil
    rw [hidem, hproc]
    have hevrow : ((audit_row_of e).details.event_id == some e.event_id)
        = true := by
      simp [audit_row_of]
    rw [List.filter_append, hnil]
    simp [hevrow]

/-- Witness for C10 at a concrete event on the empty store: exactly one audit
row referencing the event id after two calls. -/
theorem claim_C10_witness :
    ((audit_consumer_process (audit_consumer_process DB.empty ev_completed)
        ev_completed).audits.filter
      (fun a => a.details.event_id == some ev_completed.event_id)).length = 1 :=
  (claim_C10 DB.empty ev_completed).2 rfl

/-- At threshold 0.8 a medium (0.6) confidence fails the gate. -/
theorem meets_threshold_medium (r : AIRecommendation)
    (h : r.confidence = RecommendationConfidence.medium) :
    meets_threshold ai_enabled r = false := by
  rw [meets_threshold, h]
  rw [decide_eq_false_iff_not]
  rw [ai_enabled]
  norm_num [confidence_value]

/-- At threshold 0.8 a high (0.9) confidence passes the gate. -/
theorem meets_threshold_high (r : AIRecommendation)
    (h : r.confidence = RecommendationConfidence.high) :
    meets_threshold ai_enabled r = true := by
  rw [meets_threshold, h]
  rw [decide_eq_true_eq]
  rw [ai_enabled]
  norm_num [confidence_value]

/-- Evaluation of the enabled, high-confidence priority_change execution on
the one-task store: the result and the mutated store. -/
theorem exec_high_applied :
    execute_recommendation ai_enabled true 0 db_exec rec_high_priority false =
      (⟨rec_high_priority, true, ExecReason.successfullyApplied,
        some (ChangeSet.priorityChanged "low" "high")⟩,
       log_execution 0
         { db_exec with tasks := [⟨1, 2, "T", false, none, Priority.high, 0⟩] }
         ⟨rec_high_priority, true, ExecReason.successfullyApplied,
          some (ChangeSet.priorityChanged "low" "high")⟩) := by
  rw [execute_recommendation]
  rw [meets_threshold_high rec_high_priority rfl]
  rw [show ai_enabled.ai_automation_enabled = true from rfl]
  rfl

/-- C5: with the automation flag off, execute_recommendation rejects every
recommendation with applied=false and leaves the store untouched; whenever a
result reports applied=true the recommendation's confidence value reached the
configured threshold; at threshold 0.8 every medium (0.6) confidence
recommendation comes back applied=false; and at threshold 0.8 a high (0.9)
confidence priority_change recommendation on a low-priority task comes back
applied=true with the task's priority field updated to the suggested value. -/
theorem claim_C5 :
    (∀ (s : AISettings) (ee : Bool) (now : Int) (db : DB)
        (r : AIRecommendation) (dry : Bool),
      execute_recommendation { s with ai_automation_enabled := false }
          ee now db r dry =
        (⟨r, false, ExecReason.globallyDisabled, none⟩, db))
  ∧ (∀ (s : AISettings) (ee : Bool) (now : Int) (db : DB)
        (r : AIRecommendation) (dry : Bool),
      (execute_recommendation s ee now db r dry).1.applied = true →
        s.ai_confidence_threshold ≤ confidence_value r.confidence)
  ∧ (∀ (ee : Bool) (now : Int) (db : DB) (r : AIRecommendation) (dry : Bool),
      r.confidence = RecommendationConfidence.medium →
        (execute_recommendation ai_enabled ee now db r dry).1.applied = false)
  ∧ ((execute_recommendation ai_enabled true 0 db_exec rec_high_priority
        false).1.applied = true
    ∧ (execute_recommendation ai_enabled true 0 db_exec rec_high_priority
        false).2.tasks.map Task.priority = [Priority.high]) := by
  refine ⟨?_, ?_, ?_, ?_⟩
  · intro s ee now db r dry
    rw [execute_recommendation]
    rfl
  · intro s ee now db r dry h
    by_cases h1 : s.ai_automation_enabled
    case neg =>
      rw [execute_recommendation] at h
      simp [h1] at h
    case pos =>
      cases h2 : meets_threshold s r with
      | false =>
        rw [execute_recommendation] at h
        simp [h1, h2] at h
      | true =>
        rw [meets_threshold, decide_eq_true_eq] at h2
        exact h2
  · intro ee now db r dry hc
    rw [execute_recommendation]
    rw [meets_threshold_medium r hc]
    rw [show ai_enabled.ai_automation_enabled = true from rfl]
    rfl
  · rw [exec_high_applied]
    exact ⟨rfl, rfl⟩

/-- Witness for C5: the necessity direction applied at the concrete
high-confidence execution, whose applied=true is discharged by evaluation. -/
theorem claim_C5_witness :
    ai_enabled.ai_confidence_threshold ≤
      confidence_value rec_high_priority.confidence :=
  claim_C5.2.1 ai_enabled true 0 db_exec rec_high_priority false
    (claim_C5.2.2.2.1)

/-- C4 (divergence evidence): the skipped outcomes of
execute_recommendation — global-disable gate, confidence gate, missing
handler, and a handler exception (task absent from the store) — all return
applied=false WITHOUT appending any AuditLog entry; the claim requires
exactly one ai.recommendation.skipped entry with ai_automated=true in each
of these cases (only the applied and dry-run paths call _log_execution). -/
theorem claim_C4_code_bug :
    ((execute_recommendation ai_disabled true 0 DB.empty rec_high_priority
        false).1.applied = false
    ∧ (execute_recommendation ai_disabled true 0 DB.empty rec_high_priority
        false).2.audits.length = 0)
  ∧ (execute_recommendation ai_enabled true 0 DB.empty rec_medium_priority
      false).2.audits.length = 0
  ∧ (execute_recommendation ai_enabled true 0 DB.empty rec_overdue_info
      false).2.audits.length = 0
  ∧ (execute_recommendation ai_enabled true 0 DB.empty rec_high_priority
      false).2.audits.length = 0 := by
  refine ⟨⟨by decide, by decide⟩, ?_, ?_, ?_⟩
  · rw [execute_recommendation]
    rw [meets_threshold_medium rec_medium_priority rfl]
    rfl
  · rw [execute_recommendation]
    rw [meets_threshold_high rec_overdue_info rfl]
    rfl
  · rw [execute_recommendation]
    rw [meets_threshold_high rec_high_priority rfl]
    rfl

end TodoBackend
